import Mathlib

/-
Verification of the CAPTCHA generator (captcha_generator.py).

The development shallowly embeds the parts of the program that the
verified properties are about:

  * the configuration-merge steps of generate_captcha and generate_dataset,
    with Python dict-update-by-mutation semantics made explicit (the merged
    dict aliases the stored configuration unless the code copied it first);
  * the per-character rendering pipeline of _draw_character, with every
    random draw supplied by an explicit oracle (CharDraws) and every PIL
    raster operation supplied by an abstract operations record (PILOps),
    so that the theorems quantify over all possible draw outcomes and all
    possible raster behaviours;
  * the category-id and oriented-bounding-box computations of
    export_to_original_format.

Machine reals (Python floats) are modelled by the rationals; trigonometric
values consumed by the oriented-bbox computation are passed in as the
already-computed cosine/sine, exactly as the source computes them once and
reuses them.  Python exceptions are modelled by the Except monad; an
operation the source wraps in try/except is modelled as an Option-returning
operation plus the fallback at the call site.
-/

namespace CaptchaGen

/-- Python exception outcomes that the embedded code can produce. -/
inductive PyError where
  | keyError : String → PyError
  | valueError : String → PyError
  | unboundLocalError : String → PyError
  | indexError : PyError
deriving DecidableEq, Repr

/-- An RGB colour triple.  The program stores colours as int tuples. -/
structure Color where
  r : Int
  g : Int
  b : Int
deriving DecidableEq, Repr

/-- The bounding-box record built at the end of _draw_character
(captcha_generator.py lines 581-589). -/
structure BoundingBox where
  character : Char
  x_center : ℚ
  y_center : ℚ
  width : ℚ
  height : ℚ
  rotation : ℚ
deriving DecidableEq, Repr

/-- Python int() applied to a rational: truncation toward zero. -/
def pyInt (q : ℚ) : Int := q.num / (q.den : Int)

/-- Python floor division a // b on integers. -/
def pyFloorDiv (a b : Int) : Int := Int.fdiv a b

/- ### Configuration mapping model (for the merge steps)

The stored configuration is a YAML-loaded dict.  The merge steps of
generate_captcha (lines 153-167) and generate_dataset (lines 782-791) are
embedded with explicit dict semantics: dict.update mutates the receiver in
place, and a dict fetched from the stored configuration without copy()
aliases the stored dict, so updating it changes the stored configuration. -/

/-- A YAML scalar-ish configuration value. -/
inductive CVal where
  | num : ℚ → CVal
  | str : String → CVal
  | boolv : Bool → CVal
  | pair : ℚ → ℚ → CVal
deriving DecidableEq, Repr

/-- A configuration dict: an association list keyed by strings. -/
abbrev ConfMap := List (String × CVal)

/-- Set one key of an association list (replace if present, append if not);
this is the effect of one Python dict assignment d[k] = v. -/
def setEntry {V : Type} : List (String × V) → String → V → List (String × V)
  | [], k, v => [(k, v)]
  | (k', v') :: rest, k, v =>
      if k' = k then (k, v) :: rest else (k', v') :: setEntry rest k v

/-- Python dict.update: every key of the override is written into the base. -/
def dictUpdate {V : Type} (base overrides : List (String × V)) : List (String × V) :=
  overrides.foldl (fun acc kv => setEntry acc kv.1 kv.2) base

/-- The parts of self.config that the merge steps read and (through
aliasing) can write: the captcha_config sub-dict (None when the key is
absent, in which case .get returns a fresh dict) and the mode_configs
sub-dict. -/
structure StoredConfig where
  captcha_config : Option ConfMap
  mode_configs : List (String × ConfMap)
deriving DecidableEq, Repr

/-- Truthiness of an optional Python dict: None and the empty dict are falsy. -/
def dictTruthy {V : Type} : Option (List (String × V)) → Bool
  | some (_ :: _) => true
  | _ => false

/-- The config-merge step of generate_captcha (lines 153-167).  Returns the
effective captcha_config together with the stored configuration as it is
after the call.  When the mode-specific branch is taken the source copies
the base dict before updating, but in every other case captcha_config is an
alias of self.config['captcha_config'], and the final
captcha_config.update(config) mutates the stored dict in place. -/
def generateCaptchaMerge (self : StoredConfig) (config : Option ConfMap) :
    ConfMap × StoredConfig :=
  let modeVal : Option CVal :=
    if dictTruthy config then (config.getD []).lookup "mode" else none
  let matchedMode : Option String :=
    match modeVal with
    | some (.str s) =>
        if s ≠ "" ∧ ((self.mode_configs.lookup s).isSome) then some s else none
    | _ => none
  match matchedMode with
  | some s =>
      -- mode_config_copy = captcha_config.copy(); update; reassignment:
      -- the stored dict is no longer aliased.
      let base := self.captcha_config.getD []
      let merged := dictUpdate base ((self.mode_configs.lookup s).getD [])
      let effective :=
        if dictTruthy config then dictUpdate merged (config.getD []) else merged
      (effective, self)
  | none =>
      match self.captcha_config with
      | some stored =>
          -- captcha_config aliases the stored dict; update mutates it.
          if dictTruthy config then
            let mutated := dictUpdate stored (config.getD [])
            (mutated, { self with captcha_config := some mutated })
          else (stored, self)
      | none =>
          -- .get('captcha_config', {}) built a fresh dict; no stored mutation.
          let effective :=
            if dictTruthy config then dictUpdate [] (config.getD []) else []
          (effective, self)

/-- The config-merge step of generate_dataset (lines 782-791):
config = mode_configs.get(mode, {}); config.update(custom_config).  When the
mode key is present, config aliases self.config['mode_configs'][mode] and
the update mutates the stored mode configuration. -/
def generateDatasetMerge (self : StoredConfig) (mode : String)
    (custom : Option ConfMap) : ConfMap × StoredConfig :=
  match self.mode_configs.lookup mode with
  | some stored =>
      if dictTruthy custom then
        let mutated := dictUpdate stored (custom.getD [])
        (mutated, { self with mode_configs := setEntry self.mode_configs mode mutated })
      else (stored, self)
  | none =>
      let cfg := if dictTruthy custom then dictUpdate [] (custom.getD []) else []
      (cfg, self)

/- ### Constructor: background-colour policy (lines 83-97) -/

/-- Background-colour initialization in the constructor.  config_bg is the
value of self.config.get('background_colors', []); background_colors is the
constructor argument of the same name.  When the config list is non-empty it
is used (the tuple conversion is the identity in this model); otherwise the
code raises ValueError unconditionally — the fallback to the
background_colors argument is commented out in the source, so the argument
is never consulted. -/
def initBackgroundColors (config_bg : List Color)
    (background_colors : Option (List Color)) : Except PyError (List Color) :=
  match config_bg with
  | [] => .error (.valueError "No background colors detected")
  | c :: rest => .ok (c :: rest)

/- ### Export to the original annotation format -/

/-- Category-id mapping of export_to_original_format (lines 948-953):
int(char) for a digit, ord(char.upper()) - ord('A') + 10 for a letter,
None otherwise. -/
def categoryId (c : Char) : Option Int :=
  if c.isDigit then some ((c.toNat : Int) - ('0'.toNat : Int))
  else if c.isAlpha then some ((c.toUpper.toNat : Int) - ('A'.toNat : Int) + 10)
  else none

/-- The oriented-bbox loop of export_to_original_format (lines 969-989):
the four half-extent corner offsets in top-left, top-right, bottom-right,
bottom-left order are rotated by the stored angle (whose cosine and sine
are computed once as cos_val and sin_val) and translated to the centre,
extending a flat list of (x, y) pairs. -/
def orientedBbox (cx cy w h cosv sinv : ℚ) : List ℚ :=
  let half_w := w / 2
  let half_h := h / 2
  let points : List (ℚ × ℚ) :=
    [(-half_w, -half_h), (half_w, -half_h), (half_w, half_h), (-half_w, half_h)]
  points.foldl
    (fun acc p =>
      acc ++ [p.1 * cosv - p.2 * sinv + cx, p.1 * sinv + p.2 * cosv + cy]) []

/-- Rotation of a point about a centre, phrased the way the specification
describes the oriented bbox: the corner itself is rotated about the box
centre. -/
def rotateAboutCenter (cx cy cosv sinv : ℚ) (p : ℚ × ℚ) : ℚ × ℚ :=
  (cx + (p.1 - cx) * cosv - (p.2 - cy) * sinv,
   cy + (p.1 - cx) * sinv + (p.2 - cy) * cosv)

/- ### Compositor paste clamping (lines 571-573) -/

/-- The clamped paste coordinate used for both axes:
max(0, min(canvas_extent - tile_extent, pos - tile_extent // 2)). -/
def pasteCoord (canvasExtent tileExtent pos : Int) : Int :=
  max 0 (min (canvasExtent - tileExtent) (pos - pyFloorDiv tileExtent 2))

/- ### The rendering pipeline

The per-character pipeline of _draw_character and the sample pipeline of
generate_captcha.  Random draws are supplied by oracles: CharDraws carries
the outcomes of the random calls made while drawing one character, and
RenderEnv carries the sample-level draws.  PIL raster operations are an
abstract operations record PILOps over abstract canvas and tile types, so
every theorem below holds for arbitrary raster behaviour; operations that
the source wraps in try/except return Option, with the documented fallback
applied at the call site exactly as in the source. -/

/-- The effective captcha_config as read by the rendering code.  Fields read
with dict.get(...) are Option (or Bool for keys only used for truthiness);
fields read with config[...] are Option here and raise KeyError when None. -/
structure EffectiveConfig where
  mode : Option String
  challenging_fonts : Bool
  font_size_range : Option (Int × Int)
  large_rotation_range : Option (ℚ × ℚ)
  rotation_range : Option (ℚ × ℚ)
  color_variation : Bool
  character_overlap : Bool
  overlap_amount : Option ℚ
  shear_range : Option (ℚ × ℚ)
  scale_distortion : Bool
  perspective_distortion : Bool
  character_outline : Bool
  complex_background : Bool
  noise_level : Option ℚ
  blur_level : Option ℚ
deriving DecidableEq, Repr

/-- The 4-tuple returned by draw.textbbox((0, 0), char, font). -/
structure TextBBox where
  x0 : Int
  y0 : Int
  x1 : Int
  y1 : Int
deriving DecidableEq, Repr

/-- Outcomes of the random draws made while drawing one character.  The
uniform draws are functions of the interval endpoints the source passes to
random.uniform; the colour-policy draws (lines 471-513) are folded into the
single resulting colour, since the policy is a total computation whose only
output is that colour. -/
structure CharDraws where
  fontSizeDraw : Int → Int → Int
  fontIndex : Nat
  fontLoadOk : Bool
  xOffset : Int
  yOffset : Int
  uniformRot : ℚ → ℚ → ℚ
  defaultRot20 : ℚ
  defaultRot30 : ℚ
  charColor : Color
  textBBox : TextBBox
  uniformShearX : ℚ → ℚ → ℚ
  uniformShearY : ℚ → ℚ → ℚ
  scaleX : ℚ
  scaleY : ℚ
  perspDistortion : ℚ
  perspEdge : Nat

/-- Abstract PIL operations over a canvas type Img and a glyph-tile type
Tile.  Operations the source guards with try/except are Option-valued (None
models the exception); the distractor stages and the complex-background
builder are total canvas transformations (their bodies only use defaulted
.get reads, drawing primitives and an internal try/except, none of which
can raise out). -/
structure PILOps (Img Tile : Type) where
  newImage : Int → Int → Color → Img
  complexBackground : Img
  newTile : Int → Int → Tile
  drawTextOnTile : Tile → Int → Int → Char → Color → Tile
  tileWidth : Tile → Int
  tileHeight : Tile → Int
  rotateExpand : Tile → ℚ → Tile
  affineShear : Tile → ℚ → ℚ → Option Tile
  resize : Tile → Int → Int → Tile
  quadTransform : Tile → ℚ → Nat → Option Tile
  outlineTry : Tile → Color → Option Tile
  pasteTile : Img → Tile → Int → Int → Option Img
  drawText : Img → Int → Int → Char → Color → Img
  part3Degrade : Img → Img
  part4Degrade : Img → Img
  addNoise : Img → ℚ → Img
  gaussianBlur : Img → ℚ → Img

/-- Sample-level random draws of generate_captcha. -/
structure RenderEnv where
  bgIndex : Nat
  lengthDraw : Int → Int → Int
  textIndices : Nat → Nat
  charDraws : Nat → CharDraws

/-- The generator instance state consumed by the rendering pipeline. -/
structure Generator where
  width : Int
  height : Int
  charset : List Char
  font_paths : List String
  background_colors : List Color
  captcha_length_range : Int × Int

/-- Python dict[key] access on an Option field: KeyError when absent. -/
def required {α : Type} (o : Option α) (e : PyError) : Except PyError α :=
  match o with
  | some a => .ok a
  | none => .error e

/-- _apply_shear (lines 593-604): the affine transform is attempted and the
unmodified tile is returned when it raises. -/
def applyShear {Img Tile : Type} (ops : PILOps Img Tile) (t : Tile)
    (sx sy : ℚ) : Tile :=
  match ops.affineShear t sx sy with
  | some t2 => t2
  | none => t

/-- _apply_perspective_distortion (lines 606-648): the quad transform with
the drawn distortion magnitude and edge choice is attempted and the
unmodified tile is returned when it raises. -/
def applyPerspective {Img Tile : Type} (ops : PILOps Img Tile) (t : Tile)
    (distortion : ℚ) (edge : Nat) : Tile :=
  match ops.quadTransform t distortion edge with
  | some t2 => t2
  | none => t

/-- _add_character_outline (lines 650-676): the outline composite is
attempted and the unmodified tile is returned when it raises. -/
def applyOutline {Img Tile : Type} (ops : PILOps Img Tile) (t : Tile)
    (color : Color) : Tile :=
  match ops.outlineTry t color with
  | some t2 => t2
  | none => t

/-- The rotation-angle selection of _draw_character (lines 444-468).
part3/part4 use large_rotation_range, other modes use rotation_range; a
default (fallback) font widens the range by 1.2 and, when the range key is
absent, draws from the built-in interval instead of using 0. -/
def rotationDraw (d : CharDraws) (cfg : EffectiveConfig)
    (is_default_font : Bool) : ℚ :=
  if cfg.mode = some "part4" ∨ cfg.mode = some "part3" then
    match cfg.large_rotation_range with
    | some (min_rot, max_rot) =>
        let min_rot := if is_default_font then min_rot * (6 / 5) else min_rot
        let max_rot := if is_default_font then max_rot * (6 / 5) else max_rot
        d.uniformRot min_rot max_rot
    | none => if is_default_font then d.defaultRot30 else 0
  else
    match cfg.rotation_range with
    | some (min_rot, max_rot) =>
        let min_rot := if is_default_font then min_rot * (6 / 5) else min_rot
        let max_rot := if is_default_font then max_rot * (6 / 5) else max_rot
        d.uniformRot min_rot max_rot
    | none => if is_default_font then d.defaultRot20 else 0

/-- The font path selected by _draw_character (lines 389-407): a random
member of self.font_paths when that list is non-empty and the font file
loads; None (PIL default font) otherwise.  Font-load failure is caught in
the source and leaves font_path = None. -/
def selectFontPath (g : Generator) (d : CharDraws) : Option String :=
  match g.font_paths with
  | [] => none
  | p :: rest =>
      if d.fontLoadOk then
        some ((p :: rest).get ⟨d.fontIndex % (p :: rest).length, Nat.mod_lt _ (Nat.succ_pos _)⟩)
      else none

/-- _draw_character (lines 369-591).  Draws one character tile, transforms
it, pastes it onto the canvas and returns the canvas together with the
bounding-box record.  The font-usage history kept on the instance
(_last_used_fonts, _synthetic_variations) is diagnostic bookkeeping with no
effect on any output and is not modelled. -/
def drawCharacter {Img Tile : Type} (ops : PILOps Img Tile) (d : CharDraws)
    (g : Generator) (cfg : EffectiveConfig) (char : Char) (char_index : Nat)
    (char_spacing : Int) (img : Img) : Except PyError (Img × BoundingBox) :=
  -- base_min, base_max = config['font_size_range']
  match cfg.font_size_range with
  | none => .error (.keyError "font_size_range")
  | some (base_min, base_max) =>
    let font_size := d.fontSizeDraw base_min base_max
    let font_path := selectFontPath g d
    let is_default_font : Bool := font_path = none
    -- basic character positioning and jitter
    let x_base := char_spacing * ((char_index : Int) + 1)
    let y_base := pyFloorDiv g.height 2
    let x := x_base + d.xOffset
    let y := y_base + d.yOffset
    let rotation := rotationDraw d cfg is_default_font
    -- character colour (policy folded into the oracle; black when disabled)
    let color := if cfg.color_variation then d.charColor else ⟨0, 0, 0⟩
    -- ink extent from draw.textbbox
    let char_width := d.textBBox.x1 - d.textBBox.x0
    let char_height := d.textBBox.y1 - d.textBBox.y0
    -- character overlap (strictly from config; falsy overlap_amount: no shift)
    let x := if cfg.character_overlap ∧ 0 < char_index then
               match cfg.overlap_amount with
               | some a => if a ≠ 0 then x - pyInt ((char_width : ℚ) * a) else x
               | none => x
             else x
    let original_x := x
    let original_y := y
    -- glyph tile with a fixed 60-unit margin, glyph centred
    let temp_size := max char_width char_height + 60
    let tile := ops.newTile temp_size temp_size
    let temp_x := pyFloorDiv (temp_size - char_width) 2
    let temp_y := pyFloorDiv (temp_size - char_height) 2
    let tile := ops.drawTextOnTile tile temp_x temp_y char color
    -- 1. rotation (skipped when abs(rotation) is at most 0.5 = mkRat 1 2)
    let tile := if mkRat 1 2 < |rotation| then ops.rotateExpand tile rotation else tile
    -- 2. shear: shear_x/shear_y are assigned only under "if shear_range:",
    -- yet _apply_shear is called unconditionally, so a missing shear_range
    -- raises UnboundLocalError at the call
    match cfg.shear_range with
    | none => .error (.unboundLocalError "shear_x")
    | some (min_shear, max_shear) =>
      let shear_x := d.uniformShearX min_shear max_shear
      let shear_y := d.uniformShearY min_shear max_shear
      let tile := applyShear ops tile shear_x shear_y
      -- 3. scale
      let tile := if cfg.scale_distortion then
                    let new_width := pyInt ((ops.tileWidth tile : ℚ) * d.scaleX)
                    let new_height := pyInt ((ops.tileHeight tile : ℚ) * d.scaleY)
                    ops.resize tile new_width new_height
                  else tile
      -- 4. perspective: config['mode'] is a required key here
      match cfg.mode with
      | none => .error (.keyError "mode")
      | some m =>
        let tile := if (m = "part3" ∨ m = "part4") ∧ cfg.perspective_distortion then
                      applyPerspective ops tile d.perspDistortion d.perspEdge
                    else tile
        -- 5. outline
        let tile := if cfg.character_outline then applyOutline ops tile color else tile
        -- paste, clamped to canvas bounds, with the raw-text fallback
        let paste_x := pasteCoord g.width (ops.tileWidth tile) x
        let paste_y := pasteCoord g.height (ops.tileHeight tile) y
        let img := match ops.pasteTile img tile paste_x paste_y with
                   | some im => im
                   | none => ops.drawText img original_x original_y char color
        -- bounding box in the original dataset format (lines 581-589)
        .ok (img,
             { character := char
               x_center := (original_x : ℚ) / (g.width : ℚ)
               y_center := (original_y : ℚ) / (g.height : ℚ)
               width := (char_width : ℚ) / (g.width : ℚ)
               height := (char_height : ℚ) / (g.height : ℚ)
               rotation := rotation })

/-- The bounding box as the specification describes it: the untransformed
glyph ink extent and the jittered (overlap-shifted) base position,
normalized by the canvas dimensions.  This definition makes no reference to
any tile or raster operation. -/
def specBBox (d : CharDraws) (g : Generator) (cfg : EffectiveConfig)
    (char : Char) (char_index : Nat) (char_spacing : Int) : BoundingBox :=
  let is_default_font : Bool := g.font_paths.isEmpty || !d.fontLoadOk
  let ink_w := d.textBBox.x1 - d.textBBox.x0
  let ink_h := d.textBBox.y1 - d.textBBox.y0
  let jx := char_spacing * ((char_index : Int) + 1) + d.xOffset
  let jx := if cfg.character_overlap ∧ 0 < char_index then
              match cfg.overlap_amount with
              | some a => if a ≠ 0 then jx - pyInt ((ink_w : ℚ) * a) else jx
              | none => jx
            else jx
  let jy := pyFloorDiv g.height 2 + d.yOffset
  { character := char
    x_center := (jx : ℚ) / (g.width : ℚ)
    y_center := (jy : ℚ) / (g.height : ℚ)
    width := (ink_w : ℚ) / (g.width : ℚ)
    height := (ink_h : ℚ) / (g.height : ℚ)
    rotation := rotationDraw d cfg is_default_font }

/-- Ground-truth text selection (lines 169-175): the given text, or a
random string over the charset whose length is the given captcha_length or
a draw from captcha_length_range.  random.choices on an empty population
raises IndexError when asked for a positive number of elements. -/
def genText (env : RenderEnv) (g : Generator) (textArg : Option (List Char))
    (captcha_length : Option Int) : Except PyError (List Char) :=
  match textArg with
  | some t => .ok t
  | none =>
    let k : Int := match captcha_length with
             | some k0 => k0
             | none => env.lengthDraw g.captcha_length_range.1 g.captcha_length_range.2
    match g.charset with
    | [] => if 0 < k then .error .indexError else .ok []
    | c :: rest =>
        .ok ((List.range k.toNat).map fun j =>
          (c :: rest).get ⟨env.textIndices j % (c :: rest).length, Nat.mod_lt _ (Nat.succ_pos _)⟩)

/-- The member of the background palette picked by random.choice, for a
non-empty palette. -/
def chooseBgColor (env : RenderEnv) (g : Generator)
    (h : g.background_colors ≠ []) : Color :=
  g.background_colors.get
    ⟨env.bgIndex % g.background_colors.length,
     Nat.mod_lt _ (List.length_pos.mpr h)⟩

/-- Base-image creation (lines 177-182): the complex background for part3
and part4 when enabled, otherwise a plain canvas filled with a random
member of the background palette (random.choice raises IndexError on an
empty palette). -/
def makeBaseImage {Img Tile : Type} (ops : PILOps Img Tile) (env : RenderEnv)
    (g : Generator) (cfg : EffectiveConfig) : Except PyError Img :=
  if cfg.complex_background = true ∧ (cfg.mode = some "part3" ∨ cfg.mode = some "part4") then
    .ok ops.complexBackground
  else if hne : g.background_colors = [] then .error .indexError
  else .ok (ops.newImage g.width g.height (chooseBgColor env g hne))

/-- The per-character loop of generate_captcha (lines 190-195): draw each
character in order, threading the canvas and collecting one bounding box
per character. -/
def drawLoop {Img Tile : Type} (ops : PILOps Img Tile) (env : RenderEnv)
    (g : Generator) (cfg : EffectiveConfig) (char_spacing : Int) :
    List Char → Nat → Img → Except PyError (Img × List BoundingBox)
  | [], _, img => .ok (img, [])
  | c :: rest, i, img =>
      match drawCharacter ops (env.charDraws i) g cfg c i char_spacing img with
      | .error e => .error e
      | .ok (img2, bb) =>
          match drawLoop ops env g cfg char_spacing rest (i + 1) img2 with
          | .error e => .error e
          | .ok (img3, bbs) => .ok (img3, bb :: bbs)

/-- The post-processing stage of generate_captcha (lines 203-209): noise
when noise_level > 0, then Gaussian blur when blur_level > 0; both levels
are required keys. -/
def postProcess {Img Tile : Type} (ops : PILOps Img Tile)
    (cfg : EffectiveConfig) (img : Img) : Except PyError Img :=
  match cfg.noise_level with
  | none => .error (.keyError "noise_level")
  | some noise_level =>
    let img := if 0 < noise_level then ops.addNoise img noise_level else img
    match cfg.blur_level with
    | none => .error (.keyError "blur_level")
    | some blur_level =>
      .ok (if 0 < blur_level then ops.gaussianBlur img blur_level else img)

/-- generate_captcha (lines 138-214) after the config merge: text
selection, base image, per-character drawing, mode degradations, noise and
blur.  The degradation stages are total canvas transformations; the mode
key is required by the degradation dispatch. -/
def generateCaptcha {Img Tile : Type} (ops : PILOps Img Tile)
    (env : RenderEnv) (g : Generator) (textArg : Option (List Char))
    (captcha_length : Option Int) (cfg : EffectiveConfig) :
    Except PyError (Img × List Char × List BoundingBox) :=
  match genText env g textArg captcha_length with
  | .error e => .error e
  | .ok text =>
    match makeBaseImage ops env g cfg with
    | .error e => .error e
    | .ok img =>
      let char_spacing := pyFloorDiv g.width ((text.length : Int) + 1)
      match drawLoop ops env g cfg char_spacing text 0 img with
      | .error e => .error e
      | .ok (img, bboxes) =>
        match cfg.mode with
        | none => .error (.keyError "mode")
        | some m =>
          let img := if m = "part3" then ops.part3Degrade img
                     else if m = "part4" then ops.part4Degrade img
                     else img
          match postProcess ops cfg img with
          | .error e => .error e
          | .ok img => .ok (img, text, bboxes)

/- ### Concrete instances used to exhibit runs of the pipeline -/

/-- A degenerate raster backend over unit canvases and unit tiles, with
every fallible operation succeeding and tiles reporting a 100-pixel extent. -/
def ops0 : PILOps Unit Unit where
  newImage := fun _ _ _ => ()
  complexBackground := ()
  newTile := fun _ _ => ()
  drawTextOnTile := fun _ _ _ _ _ => ()
  tileWidth := fun _ => 100
  tileHeight := fun _ => 100
  rotateExpand := fun _ _ => ()
  affineShear := fun _ _ _ => some ()
  resize := fun _ _ _ => ()
  quadTransform := fun _ _ _ => some ()
  outlineTry := fun _ _ => some ()
  pasteTile := fun _ _ _ _ => some ()
  drawText := fun _ _ _ _ _ => ()
  part3Degrade := fun _ => ()
  part4Degrade := fun _ => ()
  addNoise := fun _ _ => ()
  gaussianBlur := fun _ _ => ()

/-- Concrete per-character draw outcomes: every uniform draw returns its
lower endpoint, no jitter, a 20 by 30 ink extent. -/
def d0 : CharDraws where
  fontSizeDraw := fun lo _ => lo
  fontIndex := 0
  fontLoadOk := true
  xOffset := 0
  yOffset := 0
  uniformRot := fun lo _ => lo
  defaultRot20 := 0
  defaultRot30 := 0
  charColor := ⟨0, 0, 0⟩
  textBBox := ⟨0, 0, 20, 30⟩
  uniformShearX := fun lo _ => lo
  uniformShearY := fun lo _ => lo
  scaleX := 1
  scaleY := 1
  perspDistortion := 1 / 10
  perspEdge := 0

/-- Concrete sample-level draw outcomes. -/
def env0 : RenderEnv where
  bgIndex := 0
  lengthDraw := fun lo _ => lo
  textIndices := fun _ => 0
  charDraws := fun _ => d0

/-- A concrete generator instance: the default 640 by 160 canvas, a small
charset, no font files (PIL default font), a one-colour palette. -/
def g0 : Generator where
  width := 640
  height := 160
  charset := ['A', 'B']
  font_paths := ["DejaVuSans.ttf"]
  background_colors := [⟨255, 255, 255⟩]
  captcha_length_range := (3, 7)

/-- A complete effective configuration for normal mode with every
degradation switched off and noise and blur levels of zero. -/
def cfg0 : EffectiveConfig where
  mode := some "normal"
  challenging_fonts := false
  font_size_range := some (30, 50)
  large_rotation_range := none
  rotation_range := some (0, 0)
  color_variation := false
  character_overlap := false
  overlap_amount := none
  shear_range := some (0, 0)
  scale_distortion := false
  perspective_distortion := false
  character_outline := false
  complex_background := false
  noise_level := some 0
  blur_level := some 0

/-- cfg0 with the shear_range key removed from the effective config. -/
def cfgNoShear : EffectiveConfig := { cfg0 with shear_range := none }

/- ## Theorems -/

/- ### Shared lemmas -/

/-- The is_default_font flag of _draw_character (font_path is None) holds
exactly when the font list is empty or the font file failed to load. -/
theorem selectFontPath_none_decide (g : Generator) (d : CharDraws) :
    (decide (selectFontPath g d = none)) = (g.font_paths.isEmpty || !d.fontLoadOk) := by
  cases hfp : g.font_paths <;> cases hlo : d.fontLoadOk <;>
    simp [selectFontPath, hfp, hlo]

/-- Whenever _draw_character succeeds, the bounding box it returns is
specBBox: a value computed purely from the pre-transform quantities. -/
theorem drawCharacter_ok_bbox {Img Tile : Type} (ops : PILOps Img Tile)
    (d : CharDraws) (g : Generator) (cfg : EffectiveConfig) (char : Char)
    (char_index : Nat) (char_spacing : Int) (img : Img) (out : Img × BoundingBox)
    (h : drawCharacter ops d g cfg char char_index char_spacing img = .ok out) :
    out.2 = specBBox d g cfg char char_index char_spacing := by
  unfold drawCharacter at h
  rcases hfs : cfg.font_size_range with _ | ⟨base_min, base_max⟩ <;>
    simp only [hfs] at h
  · exact absurd h (by simp)
  rcases hsh : cfg.shear_range with _ | ⟨min_shear, max_shear⟩ <;>
    simp only [hsh] at h
  · exact absurd h (by simp)
  rcases hm : cfg.mode with _ | m <;> simp only [hm] at h
  · exact absurd h (by simp)
  simp only [Except.ok.injEq] at h
  subst h
  simp only [specBBox]
  rw [selectFontPath_none_decide]

/-- The character loop emits bounding boxes whose character fields are the
drawn characters, in order. -/
theorem drawLoop_map_character {Img Tile : Type} (ops : PILOps Img Tile)
    (env : RenderEnv) (g : Generator) (cfg : EffectiveConfig) (cs : Int) :
    ∀ (chars : List Char) (i : Nat) (img : Img) (out : Img × List BoundingBox),
      drawLoop ops env g cfg cs chars i img = .ok out →
      out.2.map BoundingBox.character = chars := by
  intro chars
  induction chars with
  | nil =>
      intro i img out h
      simp only [drawLoop, Except.ok.injEq] at h
      subst h
      rfl
  | cons c rest ih =>
      intro i img out h
      simp only [drawLoop] at h
      rcases h1 : drawCharacter ops (env.charDraws i) g cfg c i cs img with e | ⟨im1, bb⟩ <;>
        rw [h1] at h <;> dsimp only at h
      · exact absurd h (by simp)
      rcases h2 : drawLoop ops env g cfg cs rest (i + 1) im1 with e | ⟨im2, bbs⟩ <;>
        rw [h2] at h <;> dsimp only at h
      · exact absurd h (by simp)
      simp only [Except.ok.injEq] at h
      subst h
      have hc : bb.character = c := by
        rw [show bb = ((im1, bb) : Img × BoundingBox).2 from rfl,
            drawCharacter_ok_bbox ops (env.charDraws i) g cfg c i cs img (im1, bb) h1]
        rfl
      simpa only [List.map_cons, hc] using
        congrArg (List.cons c) (ih (i + 1) im1 (im2, bbs) h2)

/-- A lower-case letter upper-cases to its code point minus 32. -/
theorem isLower_toUpper_toNat (c : Char) (h : c.isLower = true) :
    c.toUpper.toNat = c.toNat - 32 := by
  simp only [Char.isLower, Bool.and_eq_true, decide_eq_true_eq] at h
  obtain ⟨h1, h2⟩ := h
  have hn1 : 97 ≤ c.toNat := UInt32.le_toNat_of_le (by decide) h1
  have hn2 : c.toNat ≤ 122 := UInt32.toNat_le_of_le (by decide) h2
  simp only [Char.toUpper]
  rw [if_pos ⟨hn1, hn2⟩]
  have hv : (c.toNat - 32).isValidChar := by
    unfold Nat.isValidChar
    left
    omega
  rw [Char.ofNat, dif_pos hv]
  show (UInt32.ofNat' _ _).toNat = _
  simp [UInt32.ofNat', UInt32.toNat]

/-- Code-point bounds of a lower-case letter. -/
theorem isLower_bounds (c : Char) (h : c.isLower = true) :
    97 ≤ c.toNat ∧ c.toNat ≤ 122 := by
  simp only [Char.isLower, Bool.and_eq_true, decide_eq_true_eq] at h
  exact ⟨UInt32.le_toNat_of_le (by decide) h.1, UInt32.toNat_le_of_le (by decide) h.2⟩

/-- Code-point bounds of an upper-case letter. -/
theorem isUpper_bounds (c : Char) (h : c.isUpper = true) :
    65 ≤ c.toNat ∧ c.toNat ≤ 90 := by
  simp only [Char.isUpper, Bool.and_eq_true, decide_eq_true_eq] at h
  exact ⟨UInt32.le_toNat_of_le (by decide) h.1, UInt32.toNat_le_of_le (by decide) h.2⟩

/-- Code-point bounds of a digit character. -/
theorem isDigit_bounds (c : Char) (h : c.isDigit = true) :
    48 ≤ c.toNat ∧ c.toNat ≤ 57 := by
  simp only [Char.isDigit, Bool.and_eq_true, decide_eq_true_eq] at h
  exact ⟨UInt32.le_toNat_of_le (by decide) h.1, UInt32.toNat_le_of_le (by decide) h.2⟩

/-- Upper-casing an upper-case letter is the identity. -/
theorem isUpper_toUpper (c : Char) (h : c.isUpper = true) : c.toUpper = c := by
  obtain ⟨h1, h2⟩ := isUpper_bounds c h
  simp only [Char.toUpper]
  rw [if_neg]
  omega

/- ### Claim theorems -/

/-- C1: whenever _draw_character returns a bounding box, that box is
computed from the untransformed glyph ink width and height (the textbbox
extent) and the jittered base position (base plus random offset and the
config-gated overlap shift), with x_center and width divided by the canvas
width and y_center and height divided by the canvas height.  Since the
statement holds for every raster-operation record ops, the box is
independent of the transformed tile geometry: specBBox mentions no tile or
transform operation at all. -/
theorem drawCharacter_bbox_pretransform {Img Tile : Type} (ops : PILOps Img Tile)
    (d : CharDraws) (g : Generator) (cfg : EffectiveConfig) (char : Char)
    (char_index : Nat) (char_spacing : Int) (img : Img) (out : Img × BoundingBox)
    (h : drawCharacter ops d g cfg char char_index char_spacing img = .ok out) :
    out.2 = specBBox d g cfg char char_index char_spacing :=
  drawCharacter_ok_bbox ops d g cfg char char_index char_spacing img out h

/-- C1 witness: a concrete successful run of _draw_character whose
bounding box is the spec-side value. -/
theorem drawCharacter_bbox_pretransform_witness :
    ((((), { character := 'A',
             x_center := ((213 : ℤ) : ℚ) / ((640 : ℤ) : ℚ),
             y_center := ((80 : ℤ) : ℚ) / ((160 : ℤ) : ℚ),
             width := ((20 : ℤ) : ℚ) / ((640 : ℤ) : ℚ),
             height := ((30 : ℤ) : ℚ) / ((160 : ℤ) : ℚ),
             rotation := 0 }) : Unit × BoundingBox)).2 =
      specBBox d0 g0 cfg0 'A' 0 213 :=
  drawCharacter_bbox_pretransform ops0 d0 g0 cfg0 'A' 0 213 ()
    ((), { character := 'A',
           x_center := ((213 : ℤ) : ℚ) / ((640 : ℤ) : ℚ),
           y_center := ((80 : ℤ) : ℚ) / ((160 : ℤ) : ℚ),
           width := ((20 : ℤ) : ℚ) / ((640 : ℤ) : ℚ),
           height := ((30 : ℤ) : ℚ) / ((160 : ℤ) : ℚ),
           rotation := 0 }) (by rfl)

/-- C2: whenever generate_captcha returns normally, the bounding-box list
has exactly one entry per character of the returned ground-truth text, and
mapping each box to its character field reproduces the text in order. -/
theorem generateCaptcha_one_bbox_per_char {Img Tile : Type}
    (ops : PILOps Img Tile) (env : RenderEnv) (g : Generator)
    (textArg : Option (List Char)) (captcha_length : Option Int)
    (cfg : EffectiveConfig) (img : Img) (text : List Char)
    (bboxes : List BoundingBox)
    (h : generateCaptcha ops env g textArg captcha_length cfg = .ok (img, text, bboxes)) :
    bboxes.length = text.length ∧ bboxes.map BoundingBox.character = text := by
  unfold generateCaptcha at h
  rcases h1 : genText env g textArg captcha_length with e | t <;> rw [h1] at h
  · exact absurd h (by simp)
  rcases h2 : makeBaseImage ops env g cfg with e | im0 <;> rw [h2] at h
  · exact absurd h (by simp)
  rcases h3 : drawLoop ops env g cfg (pyFloorDiv g.width ((t.length : Int) + 1)) t 0 im0
    with e | q <;> simp only [h3] at h
  · exact absurd h (by simp)
  rcases hm : cfg.mode with _ | m <;> simp only [hm] at h
  · exact absurd h (by simp)
  rcases h4 : postProcess ops cfg
      (if m = "part3" then ops.part3Degrade q.1
       else if m = "part4" then ops.part4Degrade q.1 else q.1) with e | im2 <;>
    simp only [h4] at h
  · exact absurd h (by simp)
  simp only [Except.ok.injEq, Prod.mk.injEq] at h
  obtain ⟨-, htext, hbb⟩ := h
  subst htext
  subst hbb
  have hmap := drawLoop_map_character ops env g cfg
    (pyFloorDiv g.width ((t.length : Int) + 1)) t 0 im0 q h3
  constructor
  · have := congrArg List.length hmap
    simpa using this
  · exact hmap

/-- C2 witness: a concrete normal return of generate_captcha with two
characters and the matching two bounding boxes. -/
theorem generateCaptcha_one_bbox_per_char_witness :
    ([{ character := 'A',
        x_center := ((213 : ℤ) : ℚ) / ((640 : ℤ) : ℚ),
        y_center := ((80 : ℤ) : ℚ) / ((160 : ℤ) : ℚ),
        width := ((20 : ℤ) : ℚ) / ((640 : ℤ) : ℚ),
        height := ((30 : ℤ) : ℚ) / ((160 : ℤ) : ℚ),
        rotation := 0 },
      { character := 'B',
        x_center := ((426 : ℤ) : ℚ) / ((640 : ℤ) : ℚ),
        y_center := ((80 : ℤ) : ℚ) / ((160 : ℤ) : ℚ),
        width := ((20 : ℤ) : ℚ) / ((640 : ℤ) : ℚ),
        height := ((30 : ℤ) : ℚ) / ((160 : ℤ) : ℚ),
        rotation := 0 }] : List BoundingBox).length = (['A', 'B'] : List Char).length ∧
    ([{ character := 'A',
        x_center := ((213 : ℤ) : ℚ) / ((640 : ℤ) : ℚ),
        y_center := ((80 : ℤ) : ℚ) / ((160 : ℤ) : ℚ),
        width := ((20 : ℤ) : ℚ) / ((640 : ℤ) : ℚ),
        height := ((30 : ℤ) : ℚ) / ((160 : ℤ) : ℚ),
        rotation := 0 },
      { character := 'B',
        x_center := ((426 : ℤ) : ℚ) / ((640 : ℤ) : ℚ),
        y_center := ((80 : ℤ) : ℚ) / ((160 : ℤ) : ℚ),
        width := ((20 : ℤ) : ℚ) / ((640 : ℤ) : ℚ),
        height := ((30 : ℤ) : ℚ) / ((160 : ℤ) : ℚ),
        rotation := 0 }] : List BoundingBox).map BoundingBox.character = ['A', 'B'] :=
  generateCaptcha_one_bbox_per_char ops0 env0 g0 (some ['A', 'B']) none cfg0
    () ['A', 'B'] _ (by rfl)

/-- C3: a rendering-stage failure does escape generate_captcha.  With an
effective configuration that lacks shear_range (all other keys present and
valid), drawing any character evaluates the never-assigned shear_x, and the
resulting UnboundLocalError propagates out of generate_captcha instead of
being swallowed like the other transform failures. -/
theorem generateCaptcha_missing_shear_range :
    generateCaptcha ops0 env0 g0 (some ['A']) none cfgNoShear =
      .error (.unboundLocalError "shear_x") := by rfl

/-- C4: the stored configuration is mutated by a call carrying an explicit
override mapping.  First conjunct: generate_captcha with a config argument
whose mode is not in mode_configs updates self.config's captcha_config
sub-dict in place.  Second conjunct: generate_dataset with a custom_config
updates self.config's mode_configs entry for the requested mode in place. -/
theorem merge_mutates_stored_config :
    (generateCaptchaMerge ⟨some [("noise_level", .num 0)], []⟩
        (some [("mode", .str "normal"), ("blur_level", .num 1)])).2 ≠
      ⟨some [("noise_level", .num 0)], []⟩ ∧
    (generateDatasetMerge ⟨none, [("part3", [("noise_level", .num 0)])]⟩ "part3"
        (some [("noise_level", .num 5)])).2 ≠
      ⟨none, [("part3", [("noise_level", .num 0)])]⟩ := by decide

/-- C5: the category-id mapping of export_to_original_format sends a digit
to its value (in 0..9) and a letter of either case to the code point of its
upper-case form minus the code point of A plus 10 (in 10..35); in
particular the digit 7 maps to 7 and the letter b maps to 11. -/
theorem categoryId_digit_letter (c : Char) :
    (c.isDigit = true →
      categoryId c = some ((c.toNat : Int) - ('0'.toNat : Int)) ∧
      0 ≤ (c.toNat : Int) - ('0'.toNat : Int) ∧
      (c.toNat : Int) - ('0'.toNat : Int) ≤ 9) ∧
    (c.isAlpha = true →
      categoryId c = some ((c.toUpper.toNat : Int) - ('A'.toNat : Int) + 10) ∧
      10 ≤ (c.toUpper.toNat : Int) - ('A'.toNat : Int) + 10 ∧
      (c.toUpper.toNat : Int) - ('A'.toNat : Int) + 10 ≤ 35) ∧
    categoryId '7' = some 7 ∧ categoryId 'b' = some 11 := by
  refine ⟨?_, ?_, by decide, by decide⟩
  · intro hd
    obtain ⟨h1, h2⟩ := isDigit_bounds c hd
    refine ⟨by simp [categoryId, hd], ?_, ?_⟩ <;>
      · show _ ≤ _
        push_cast
        omega
  · intro ha
    have hnd : c.isDigit = false := by
      rcases (Bool.or_eq_true _ _).mp (by simpa [Char.isAlpha] using ha) with hu | hl
      · obtain ⟨h1, h2⟩ := isUpper_bounds c hu
        by_contra hb
        obtain ⟨g1, g2⟩ := isDigit_bounds c (by simpa using hb)
        omega
      · obtain ⟨h1, h2⟩ := isLower_bounds c hl
        by_contra hb
        obtain ⟨g1, g2⟩ := isDigit_bounds c (by simpa using hb)
        omega
    have hup : 65 ≤ c.toUpper.toNat ∧ c.toUpper.toNat ≤ 90 := by
      rcases (Bool.or_eq_true _ _).mp (by simpa [Char.isAlpha] using ha) with hu | hl
      · rw [isUpper_toUpper c hu]
        exact isUpper_bounds c hu
      · rw [isLower_toUpper_toNat c hl]
        obtain ⟨h1, h2⟩ := isLower_bounds c hl
        omega
    refine ⟨by simp [categoryId, hnd, ha], ?_, ?_⟩ <;>
      · show _ ≤ _
        push_cast
        omega

/-- C5 witness: the two hypotheses of the mapping theorem are satisfiable;
instantiating at the digit 7 and the letter b yields the claimed values. -/
theorem categoryId_digit_letter_witness :
    (categoryId '7' = some (('7'.toNat : Int) - ('0'.toNat : Int)) ∧
     0 ≤ ('7'.toNat : Int) - ('0'.toNat : Int) ∧
     ('7'.toNat : Int) - ('0'.toNat : Int) ≤ 9) ∧
    (categoryId 'b' = some (('b'.toUpper.toNat : Int) - ('A'.toNat : Int) + 10) ∧
     10 ≤ ('b'.toUpper.toNat : Int) - ('A'.toNat : Int) + 10 ∧
     ('b'.toUpper.toNat : Int) - ('A'.toNat : Int) + 10 ≤ 35) :=
  ⟨(categoryId_digit_letter '7').1 (by decide),
   (categoryId_digit_letter 'b').2.1 (by decide)⟩

/-- C6: with zero rotation (cosine 1, sine 0) the oriented bbox is exactly
the four axis-aligned corners x1 y1, x2 y1, x2 y2, x1 y2 with
x1 = cx - w/2, x2 = cx + w/2, y1 = cy - h/2, y2 = cy + h/2 in top-left,
top-right, bottom-right, bottom-left order; and for any rotation the
emitted list is those four corners each rotated about the box centre. -/
theorem orientedBbox_corners (cx cy w h cosv sinv : ℚ) :
    orientedBbox cx cy w h 1 0 =
      [cx - w / 2, cy - h / 2, cx + w / 2, cy - h / 2,
       cx + w / 2, cy + h / 2, cx - w / 2, cy + h / 2] ∧
    orientedBbox cx cy w h cosv sinv =
      [(rotateAboutCenter cx cy cosv sinv (cx - w / 2, cy - h / 2)).1,
       (rotateAboutCenter cx cy cosv sinv (cx - w / 2, cy - h / 2)).2,
       (rotateAboutCenter cx cy cosv sinv (cx + w / 2, cy - h / 2)).1,
       (rotateAboutCenter cx cy cosv sinv (cx + w / 2, cy - h / 2)).2,
       (rotateAboutCenter cx cy cosv sinv (cx + w / 2, cy + h / 2)).1,
       (rotateAboutCenter cx cy cosv sinv (cx + w / 2, cy + h / 2)).2,
       (rotateAboutCenter cx cy cosv sinv (cx - w / 2, cy + h / 2)).1,
       (rotateAboutCenter cx cy cosv sinv (cx - w / 2, cy + h / 2)).2] := by
  constructor <;>
    · simp only [orientedBbox, rotateAboutCenter, List.foldl, List.nil_append,
        List.cons_append, List.append_nil, List.cons.injEq, and_true]
      norm_num
      and_intros <;> ring

/-- C7: with noise_level = 0 and blur_level = 0 the post-processing stage
is the identity on the canvas: neither the noise pass nor the Gaussian
blur is applied. -/
theorem postProcess_noop {Img Tile : Type} (ops : PILOps Img Tile)
    (cfg : EffectiveConfig) (img : Img)
    (hn : cfg.noise_level = some 0) (hb : cfg.blur_level = some 0) :
    postProcess ops cfg img = .ok img := by
  simp [postProcess, hn, hb]

/-- C7 witness: the zero-noise zero-blur configuration cfg0 satisfies the
hypotheses and the stage returns the canvas unchanged. -/
theorem postProcess_noop_witness : postProcess ops0 cfg0 () = .ok () :=
  postProcess_noop ops0 cfg0 () rfl rfl

/-- C8 counterexample: the clamped paste coordinate cannot keep a tile
inside the canvas when the tile is larger than the canvas.  With canvas
extent 640, tile extent 700 and jittered centre 300 the paste coordinate is
clamped to 0 and the pasted tile ends at 700 > 640. -/
theorem pasteCoord_overflow :
    pasteCoord 640 700 300 = 0 ∧ ¬ (pasteCoord 640 700 300 + 700 ≤ 640) := by
  decide

/-- C8 (amended): the paste coordinate is the jittered centre minus half
the transformed tile extent, clamped below by 0 always; and whenever the
tile extent does not exceed the canvas extent, the pasted tile lies fully
inside the canvas. -/
theorem pasteCoord_clamped (c tw pos : Int) (h : tw ≤ c) :
    0 ≤ pasteCoord c tw pos ∧ pasteCoord c tw pos + tw ≤ c ∧
    pasteCoord c tw pos = max 0 (min (c - tw) (pos - pyFloorDiv tw 2)) := by
  refine ⟨le_max_left _ _, ?_, rfl⟩
  have h1 : pasteCoord c tw pos ≤ c - tw := by
    unfold pasteCoord
    have h2 : min (c - tw) (pos - pyFloorDiv tw 2) ≤ c - tw := min_le_left _ _
    omega
  omega

/-- C8 witness: a 100-wide tile on a 640-wide canvas pastes at 250 and
stays in bounds. -/
theorem pasteCoord_clamped_witness :
    0 ≤ pasteCoord 640 100 300 ∧ pasteCoord 640 100 300 + 100 ≤ 640 ∧
    pasteCoord 640 100 300 = max 0 (min (640 - 100) (300 - pyFloorDiv 100 2)) :=
  pasteCoord_clamped 640 100 300 (by decide)

/-- C9: an empty configured background palette makes the constructor fail
with the ValueError (no silent default palette), and with a non-empty
palette the plain-background branch fills the canvas with chooseBgColor, a
member of that palette. -/
theorem background_palette_policy :
    (∀ bgArg : Option (List Color),
      initBackgroundColors [] bgArg =
        .error (.valueError "No background colors detected")) ∧
    (∀ (Img Tile : Type) (ops : PILOps Img Tile) (env : RenderEnv)
       (g : Generator) (cfg : EffectiveConfig)
       (hne : g.background_colors ≠ [])
       (hpl : ¬ (cfg.complex_background = true ∧
                 (cfg.mode = some "part3" ∨ cfg.mode = some "part4"))),
      makeBaseImage ops env g cfg =
        .ok (ops.newImage g.width g.height (chooseBgColor env g hne)) ∧
      chooseBgColor env g hne ∈ g.background_colors) := by
  constructor
  · intro bgArg
    rfl
  · intro Img Tile ops env g cfg hne hpl
    constructor
    · unfold makeBaseImage
      rw [if_neg hpl, dif_neg hne]
    · unfold chooseBgColor
      exact List.get_mem _ _ _

/-- C9 witness: the error on the empty palette, and a concrete plain
background drawn in the palette colour. -/
theorem background_palette_policy_witness :
    initBackgroundColors [] none =
      .error (.valueError "No background colors detected") ∧
    makeBaseImage ops0 env0 g0 cfg0 =
      .ok (ops0.newImage g0.width g0.height (chooseBgColor env0 g0 (by decide))) ∧
    chooseBgColor env0 g0 (by decide) ∈ g0.background_colors :=
  ⟨background_palette_policy.1 none,
   background_palette_policy.2 Unit Unit ops0 env0 g0 cfg0 (by decide) (by decide)⟩

/-- C10: when the loaded config has no non-empty background_colors entry
the constructor raises even when a non-empty background_colors argument is
passed, and the argument is never consulted: the result is the same for
every value of the argument. -/
theorem init_background_colors_ignores_argument :
    (∀ bgArg : List Color,
      initBackgroundColors [] (some bgArg) =
        .error (.valueError "No background colors detected")) ∧
    (∀ (config_bg : List Color) (a b : Option (List Color)),
      initBackgroundColors config_bg a = initBackgroundColors config_bg b) := by
  constructor
  · intro bgArg
    rfl
  · intro config_bg a b
    cases config_bg <;> rfl

end CaptchaGen
